import Mathlib

/-!
Verification of `src/mutator/mutator.py` (aioquic_mutator).

The source file defines a `Mutator` class with two mutation methods
(`mutate_client_hello`, `mutate_server_hello`) driven by a list of
descriptor dicts, and a static validator `parse_mutation_params` that
turns a JSON text into such a list.

Embedding conventions:
* JSON-decoded Python values are modelled by the inductive `Json`
  (Python `None` is `Json.null`, since `json.loads` maps JSON null to
  `None`).
* A Python dict of string keys is an association list
  `List (String × Json)`; `dget` is dict lookup.
* A handshake message (aioquic's `ClientHello` / `ServerHello`, an
  external collaborator of this core) is modelled as the set of its
  named attributes with their values: `Msg := List (String × Json)`;
  `hasattr`, `getattr`, `setattr` model the Python builtins used by the
  engine.  A key being present models the attribute existing on the
  concrete structure; its value is the attribute's current value
  (possibly `Json.null`, i.e. Python `None`).
* Raised Python exceptions are modelled with `Except PyErr`.
  `PyErr.valueError` covers `ValueError` and its stdlib subclass
  `json.JSONDecodeError` (which is what `json.loads` raises);
  `PyErr.keyError` models `KeyError` from a failed dict subscript;
  `PyErr.otherError` models `TypeError`-style failures on dynamic
  paths that no validated input reaches.
-/

/-- A JSON-decoded Python value. -/
inductive Json where
  | null
  | bool (b : Bool)
  | num (n : Int)
  | str (s : String)
  | arr (elems : List Json)
  | obj (kvs : List (String × Json))

/-- Python exceptions raised by the mutator code. -/
inductive PyErr where
  | valueError (msg : String)
  | keyError (key : String)
  | otherError (msg : String)
deriving Repr, DecidableEq

/-- Dict lookup (`d.get(key)` / `d[key]` before the KeyError decision). -/
def dget {α : Type} : List (String × α) → String → Option α
  | [], _ => none
  | (k, v) :: rest, key => if k == key then some v else dget rest key

/-- A Python dict with string keys and JSON-decoded values: the shape of
one mutation descriptor and of its `fields` sub-dict. -/
abbrev Dict := List (String × Json)

/-- A handshake message: its named attributes with their current values. -/
abbrev Msg := List (String × Json)

/-- Python `hasattr(msg, name)`. -/
def hasattr (m : Msg) (name : String) : Bool := (dget m name).isSome

/-- Python `getattr(msg, name)` as a partial read. -/
def getattr (m : Msg) (name : String) : Option Json := dget m name

/-- Python `setattr(msg, name, v)`: replace the attribute's value
(or add the attribute when absent, which the guarded source never does). -/
def setattr : Msg → String → Json → Msg
  | [], name, v => [(name, v)]
  | (k, w) :: rest, name, v =>
      if k == name then (k, v) :: rest else (k, w) :: setattr rest name v

/-- Python `d[key]` on a JSON-decoded value: KeyError when the key is
absent from a dict, TypeError-style failure on a non-dict. -/
def pyIndex (j : Json) (key : String) : Except PyErr Json :=
  match j with
  | .obj kvs =>
      match dget kvs key with
      | some v => .ok v
      | none => .error (.keyError key)
  | _ => .error (.otherError "subscript on a non-dict value")

/-- Python `key in d` on a JSON-decoded value.  The validated paths only
ever test membership on dicts; `in` on other values (substring test on
strings, TypeError on numbers) is modelled as a failure. -/
def pyIn (key : String) (j : Json) : Except PyErr Bool :=
  match j with
  | .obj kvs => .ok (dget kvs key).isSome
  | _ => .error (.otherError "membership test on a non-dict value")

/-- Python `j == s` for a string literal `s` (false on any non-string). -/
def jeqStr (j : Json) (s : String) : Bool :=
  match j with
  | .str t => t == s
  | _ => false

/-- Python `v in list_of_strings`: true only for a string value
occurring in the list (a non-string never equals a string). -/
def jsonInStrs (v : Json) (ss : List String) : Bool :=
  match v with
  | .str s => ss.contains s
  | _ => false

/-- Python `o in list_of_strings` where `o` is `d.get(k)` (possibly
`None`): true only for a present string value occurring in the list. -/
def optInStrs (o : Option Json) (ss : List String) : Bool :=
  match o with
  | some j => jsonInStrs j ss
  | none => false

/-- `MUTATIONS_FORMAT` from the source: each mutation kind with its
required parameter list, in declaration order. -/
def MUTATIONS_FORMAT : List (String × List String) :=
  [("identity", []),
   ("remove_field", ["field_name"]),
   ("modify_field", ["field_name", "new_value"]),
   ("send_additional_packet", ["packet_type", "packet_content"])]

/-- `ALLOWED_PACKET_TYPES` from the source. -/
def ALLOWED_PACKET_TYPES : List String := ["ClientHello", "ServerHello"]

/-- `ALLOWED_FIELD_NAMES` from the source. -/
def ALLOWED_FIELD_NAMES : List String :=
  ["random", "legacy_session_id", "cipher_suites",
   "legacy_compression_methods", "alpn_protocols", "early_data",
   "key_share", "pre_shared_key", "psk_key_exchange_modes",
   "server_name", "signature_algorithms", "supported_groups",
   "supported_versions", "other_extensions"]

/-- Rendering of a Python value into the f-string error messages.  The
source interpolates the offending value; this model renders scalars and
keeps a fixed tag for containers (no claim inspects message text). -/
def shallowRepr (o : Option Json) : String :=
  match o with
  | none => "None"
  | some .null => "None"
  | some (.bool true) => "True"
  | some (.bool false) => "False"
  | some (.num n) => toString n
  | some (.str s) => s
  | some (.arr _) => "a list value"
  | some (.obj _) => "a dict value"

def invalidMutationTypeMsg (o : Option Json) : String :=
  "Invalid mutation type: " ++ shallowRepr o

def invalidTargetMsg (o : Option Json) : String :=
  "Invalid target: " ++ shallowRepr o

def missingFieldMsg (f mt : String) : String :=
  "Missing required field " ++ f ++ " for mutation type " ++ mt

def invalidFieldNameMsg (v : Json) : String :=
  "Invalid field name: " ++ shallowRepr (some v)

def invalidPacketTypeMsg (v : Json) : String :=
  "Invalid packet type: " ++ shallowRepr (some v)

/-- The per-kind required-parameter loop of `parse_mutation_params`
(source lines 141-148): for each required parameter in declared order,
check presence in `fields`, then the enum membership for `field_name`
and `packet_type`; raise `ValueError` at the first failing check. -/
def checkRequired (mt : String) (fields : Json) : List String → Except PyErr Unit
  | [] => .ok ()
  | f :: rest =>
      match pyIn f fields with
      | .error e => .error e
      | .ok present =>
          if !present then .error (.valueError (missingFieldMsg f mt))
          else if f == "field_name" then
            match pyIndex fields f with
            | .error e => .error e
            | .ok v =>
                if !(jsonInStrs v ALLOWED_FIELD_NAMES) then
                  .error (.valueError (invalidFieldNameMsg v))
                else checkRequired mt fields rest
          else if f == "packet_type" then
            match pyIndex fields f with
            | .error e => .error e
            | .ok v =>
                if !(jsonInStrs v ALLOWED_PACKET_TYPES) then
                  .error (.valueError (invalidPacketTypeMsg v))
                else checkRequired mt fields rest
          else checkRequired mt fields rest

/-- Validation of one raw entry of the mutation list (source lines
130-153 inside the loop): kind membership, then target membership, then
the required-parameter checks, then construction of the descriptor dict
with keys `mutation_type`, `target`, `fields`. -/
def parseEntry (mutation : Json) : Except PyErr Dict :=
  match mutation with
  | .obj kvs =>
      let mtOpt := dget kvs "mutation"
      let tgtOpt := dget kvs "target"
      let fields := (dget kvs "fields").getD (Json.obj [])
      if !(optInStrs mtOpt (MUTATIONS_FORMAT.map Prod.fst)) then
        .error (.valueError (invalidMutationTypeMsg mtOpt))
      else if !(optInStrs tgtOpt ["client", "server"]) then
        .error (.valueError (invalidTargetMsg tgtOpt))
      else
        match mtOpt, tgtOpt with
        | some (.str mt), some (.str tgt) =>
            (match checkRequired mt fields ((dget MUTATIONS_FORMAT mt).getD []) with
             | .error e => .error e
             | .ok _ =>
                 .ok [("mutation_type", Json.str mt),
                      ("target", Json.str tgt),
                      ("fields", fields)])
        | _, _ =>
            -- unreachable: both membership checks above force string values
            .error (.otherError "unreachable")
  | _ =>
      -- `mutation.get(...)` on a non-dict entry raises AttributeError
      .error (.otherError "entry is not a dict")

/-- The entry loop of `parse_mutation_params`: validate entries in input
order, appending each descriptor; the first raised error aborts the run
(nothing built so far is returned). -/
def parseList : List Json → Except PyErr (List Dict)
  | [] => .ok []
  | e :: rest =>
      match parseEntry e with
      | .error err => .error err
      | .ok d =>
          match parseList rest with
          | .error err => .error err
          | .ok ds => .ok (d :: ds)

/-- `Mutator.parse_mutation_params(param_str)`.  The argument is the
outcome of `json.loads(param_str)` (the stdlib decoder, external to this
core): `.error msg` when the text is not valid JSON, in which case the
raised `json.JSONDecodeError` is a `ValueError` carrying the decoder's
message; `.ok j` with the decoded value otherwise. -/
def parse_mutation_params (loadsResult : Except String Json) :
    Except PyErr (List Dict) :=
  match loadsResult with
  | .error msg => .error (.valueError msg)
  | .ok (.arr entries) => parseList entries
  | .ok _ =>
      -- iterating a non-list top-level value never yields dict entries
      .error (.otherError "top-level value is not an array of dicts")

/-- One iteration of the engine loop (source lines 62-79 and the
identical 87-104): skip on target mismatch before anything else; then
read `mutation_type` and `fields` (KeyError when absent); dispatch on
the kind, where `remove_field` sets the named attribute to `None` and
`modify_field` sets it to `new_value`, each only when the message has
the attribute; every other kind falls through as a no-op. -/
def applyMutation (role : String) (msg : Msg) (mutation : Dict) :
    Except PyErr Msg :=
  match dget mutation "target" with
  | none => .error (.keyError "target")
  | some tgt =>
      if !(jeqStr tgt role) then .ok msg
      else
        match dget mutation "mutation_type" with
        | none => .error (.keyError "mutation_type")
        | some mtj =>
            match dget mutation "fields" with
            | none => .error (.keyError "fields")
            | some fields =>
                if jeqStr mtj "remove_field" then
                  match pyIndex fields "field_name" with
                  | .error e => .error e
                  | .ok fnj =>
                      match fnj with
                      | .str fn =>
                          if hasattr msg fn then .ok (setattr msg fn Json.null)
                          else .ok msg
                      | _ => .error (.otherError "attribute name is not a string")
                else if jeqStr mtj "modify_field" then
                  match pyIndex fields "field_name" with
                  | .error e => .error e
                  | .ok fnj =>
                      match pyIndex fields "new_value" with
                      | .error e => .error e
                      | .ok v =>
                          match fnj with
                          | .str fn =>
                              if hasattr msg fn then .ok (setattr msg fn v)
                              else .ok msg
                          | _ => .error (.otherError "attribute name is not a string")
                else
                  -- covers `identity` (explicit pass in the source) and
                  -- any unrecognized kind
                  .ok msg

/-- The engine loop over `self.mutation_params`, threading the mutated
message; a raised error aborts the loop. -/
def mutateLoop (role : String) : List Dict → Msg → Except PyErr Msg
  | [], msg => .ok msg
  | d :: rest, msg =>
      match applyMutation role msg d with
      | .error e => .error e
      | .ok msg2 => mutateLoop role rest msg2

/-- `Mutator.mutate_client_hello` with `mutation_params` passed
explicitly (the Python method reads them from `self`). -/
def mutate_client_hello (mutation_params : List Dict) (client_hello : Msg) :
    Except PyErr Msg :=
  mutateLoop "client" mutation_params client_hello

/-- `Mutator.mutate_server_hello`, textually identical to the client
method in the source up to the `"server"` role. -/
def mutate_server_hello (mutation_params : List Dict) (server_hello : Msg) :
    Except PyErr Msg :=
  mutateLoop "server" mutation_params server_hello

/-- Boolean success test on a mutator result. -/
def isOkB {α : Type} : Except PyErr α → Bool
  | .ok _ => true
  | .error _ => false

/-- Boolean test that a result is a raised `ValueError` (the failure
type the spec calls `InvalidMutationSpec`). -/
def isValueError {α : Type} : Except PyErr α → Bool
  | .error (.valueError _) => true
  | _ => false

/-! ### Basic lemmas about attribute access -/

theorem dget_setattr_self (m : Msg) (f : String) (v : Json) :
    dget (setattr m f v) f = some v := by
  induction m with
  | nil => simp [setattr, dget]
  | cons kv rest ih =>
      obtain ⟨k, w⟩ := kv
      by_cases h : k = f
      · subst h; simp [setattr, dget]
      · simp only [setattr, dget, beq_iff_eq, if_neg h]
        exact ih

theorem dget_setattr_ne (m : Msg) (f g : String) (v : Json) (h : g ≠ f) :
    dget (setattr m f v) g = dget m g := by
  induction m with
  | nil =>
      simp only [setattr, dget, beq_iff_eq]
      rw [if_neg (fun hfg => h hfg.symm)]
  | cons kv rest ih =>
      obtain ⟨k, w⟩ := kv
      by_cases hk : k = f
      · subst hk
        simp only [setattr, dget, beq_iff_eq, if_pos rfl]
        rw [if_neg (fun hfg => h hfg.symm), if_neg (fun hfg => h hfg.symm)]
      · simp only [setattr, dget, beq_iff_eq, if_neg hk]
        by_cases hg : k = g
        · rw [if_pos hg, if_pos hg]
        · rw [if_neg hg, if_neg hg]
          exact ih

theorem setattr_setattr_self (m : Msg) (f : String) (v w : Json) :
    setattr (setattr m f v) f w = setattr m f w := by
  induction m with
  | nil => simp [setattr]
  | cons kv rest ih =>
      obtain ⟨k, u⟩ := kv
      by_cases h : k = f
      · subst h; simp [setattr]
      · simp only [setattr, beq_iff_eq, if_neg h]
        rw [ih]

theorem hasattr_setattr_self (m : Msg) (f : String) (v : Json) :
    hasattr (setattr m f v) f = true := by
  simp [hasattr, dget_setattr_self]

/-! ### Lemmas about the engine loop -/

theorem mutateLoop_append (role : String) (xs ys : List Dict) (m : Msg) :
    mutateLoop role (xs ++ ys) m =
      match mutateLoop role xs m with
      | .ok m2 => mutateLoop role ys m2
      | .error e => .error e := by
  induction xs generalizing m with
  | nil => simp [mutateLoop]
  | cons d rest ih =>
      simp only [List.cons_append, mutateLoop]
      cases applyMutation role m d with
      | error e => rfl
      | ok m2 => exact ih m2


theorem applyMutation_skip (role : String) (m : Msg) (d : Dict) (tgt : Json)
    (h : dget d "target" = some tgt) (h2 : jeqStr tgt role = false) :
    applyMutation role m d = .ok m := by
  unfold applyMutation
  simp [h, h2]

theorem applyMutation_idem (role : String) (m m2 : Msg) (d : Dict)
    (h : applyMutation role m d = .ok m2) :
    applyMutation role m2 d = .ok m2 := by
  unfold applyMutation at h ⊢
  cases htgt : dget d "target" with
  | none => simp [htgt] at h
  | some tgt =>
      simp only [htgt] at h ⊢
      by_cases hrole : jeqStr tgt role = true
      case neg =>
        simp [hrole] at h ⊢
      case pos =>
        simp only [hrole, Bool.not_true, Bool.false_eq_true, if_false] at h ⊢
        cases hmt : dget d "mutation_type" with
        | none => simp [hmt] at h
        | some mtj =>
            simp only [hmt] at h ⊢
            cases hf : dget d "fields" with
            | none => simp [hf] at h
            | some fields =>
                simp only [hf] at h ⊢
                by_cases hrm : jeqStr mtj "remove_field" = true
                case pos =>
                  rw [if_pos hrm] at h ⊢
                  cases hidx : pyIndex fields "field_name" with
                  | error e => simp [hidx] at h
                  | ok fnj =>
                      simp only [hidx] at h ⊢
                      cases fnj with
                      | str fn =>
                          replace h : (if hasattr m fn = true
                              then Except.ok (setattr m fn Json.null)
                              else Except.ok m) = Except.ok m2 := h
                          by_cases hh : hasattr m fn = true
                          case pos =>
                            rw [if_pos hh] at h
                            cases h
                            simp [hasattr_setattr_self, setattr_setattr_self]
                          case neg =>
                            rw [if_neg hh] at h
                            cases h
                            simp [hh]
                      | null => simp at h
                      | bool b => simp at h
                      | num n => simp at h
                      | arr es => simp at h
                      | obj kvs => simp at h
                case neg =>
                  rw [if_neg hrm] at h ⊢
                  by_cases hmod : jeqStr mtj "modify_field" = true
                  case pos =>
                    rw [if_pos hmod] at h ⊢
                    cases hidx : pyIndex fields "field_name" with
                    | error e => simp [hidx] at h
                    | ok fnj =>
                        simp only [hidx] at h ⊢
                        cases hval : pyIndex fields "new_value" with
                        | error e => simp [hval] at h
                        | ok v =>
                            simp only [hval] at h ⊢
                            cases fnj with
                            | str fn =>
                                replace h : (if hasattr m fn = true
                                    then Except.ok (setattr m fn v)
                                    else Except.ok m) = Except.ok m2 := h
                                by_cases hh : hasattr m fn = true
                                case pos =>
                                  rw [if_pos hh] at h
                                  cases h
                                  simp [hasattr_setattr_self, setattr_setattr_self]
                                case neg =>
                                  rw [if_neg hh] at h
                                  cases h
                                  simp [hh]
                            | null => simp at h
                            | bool b => simp at h
                            | num n => simp at h
                            | arr es => simp at h
                            | obj kvs => simp at h
                  case neg =>
                    rw [if_neg hmod] at h ⊢

theorem mutateLoop_singleton (role : String) (d : Dict) (m : Msg) :
    mutateLoop role [d] m = applyMutation role m d := by
  unfold mutateLoop
  cases applyMutation role m d with
  | error e => rfl
  | ok m2 => rfl

/-- A matching `remove_field` step: set the named attribute to `None`
when the message has it, otherwise leave the message alone. -/
theorem applyMutation_remove (role : String) (d : Dict) (fj : Json)
    (fn : String) (m : Msg)
    (ht : dget d "target" = some (.str role))
    (hm : dget d "mutation_type" = some (.str "remove_field"))
    (hf : dget d "fields" = some fj)
    (hfn : pyIndex fj "field_name" = .ok (.str fn)) :
    applyMutation role m d =
      .ok (if hasattr m fn then setattr m fn Json.null else m) := by
  unfold applyMutation
  simp only [ht]
  have hrole : jeqStr (.str role) role = true := by simp [jeqStr]
  simp only [hrole, Bool.not_true, Bool.false_eq_true, if_false]
  simp only [hm, hf]
  have hj : jeqStr (Json.str "remove_field") "remove_field" = true := by decide
  rw [if_pos hj]
  simp only [hfn]
  cases hh : hasattr m fn <;> simp [hh]

/-- A matching `modify_field` step: overwrite the named attribute with
`new_value` when the message has it, otherwise leave the message alone. -/
theorem applyMutation_modify (role : String) (d : Dict) (fj : Json)
    (fn : String) (v : Json) (m : Msg)
    (ht : dget d "target" = some (.str role))
    (hm : dget d "mutation_type" = some (.str "modify_field"))
    (hf : dget d "fields" = some fj)
    (hfn : pyIndex fj "field_name" = .ok (.str fn))
    (hv : pyIndex fj "new_value" = .ok v) :
    applyMutation role m d =
      .ok (if hasattr m fn then setattr m fn v else m) := by
  unfold applyMutation
  simp only [ht]
  have hrole : jeqStr (.str role) role = true := by simp [jeqStr]
  simp only [hrole, Bool.not_true, Bool.false_eq_true, if_false]
  simp only [hm, hf]
  have hj1 : jeqStr (Json.str "modify_field") "remove_field" = false := by decide
  have hj2 : jeqStr (Json.str "modify_field") "modify_field" = true := by decide
  rw [if_neg (by rw [hj1]; exact Bool.false_ne_true), if_pos hj2]
  simp only [hfn, hv]
  cases hh : hasattr m fn <;> simp [hh]

/-- A matching step of any kind the engine does not dispatch on
(`identity`, `send_additional_packet`, or anything unrecognized) reads
`mutation_type` and `fields` and then leaves the message alone. -/
theorem applyMutation_noop (role : String) (d : Dict) (fj : Json)
    (mt : String) (m : Msg)
    (ht : dget d "target" = some (.str role))
    (hm : dget d "mutation_type" = some (.str mt))
    (hmt1 : mt ≠ "remove_field")
    (hmt2 : mt ≠ "modify_field")
    (hf : dget d "fields" = some fj) :
    applyMutation role m d = .ok m := by
  unfold applyMutation
  simp only [ht]
  have hrole : jeqStr (.str role) role = true := by simp [jeqStr]
  simp only [hrole, Bool.not_true, Bool.false_eq_true, if_false]
  simp only [hm, hf]
  have hj1 : jeqStr (Json.str mt) "remove_field" = false := by
    simp [jeqStr, hmt1]
  have hj2 : jeqStr (Json.str mt) "modify_field" = false := by
    simp [jeqStr, hmt2]
  rw [if_neg (by rw [hj1]; exact Bool.false_ne_true),
      if_neg (by rw [hj2]; exact Bool.false_ne_true)]

/-! ### Lemmas about the validator -/

theorem optInStrs_true (o : Option Json) (ss : List String)
    (h : optInStrs o ss = true) :
    ∃ s, o = some (.str s) ∧ ss.contains s = true := by
  cases o with
  | none => simp [optInStrs] at h
  | some j =>
      cases j with
      | str s => exact ⟨s, rfl, by simpa [optInStrs, jsonInStrs] using h⟩
      | null => simp [optInStrs, jsonInStrs] at h
      | bool b => simp [optInStrs, jsonInStrs] at h
      | num n => simp [optInStrs, jsonInStrs] at h
      | arr es => simp [optInStrs, jsonInStrs] at h
      | obj kvs => simp [optInStrs, jsonInStrs] at h

theorem pyIn_true_pyIndex (f : String) (fields : Json)
    (h : pyIn f fields = .ok true) :
    ∃ v, pyIndex fields f = .ok v := by
  cases fields with
  | obj kvs =>
      simp only [pyIn] at h
      cases hdg : dget kvs f with
      | none => rw [hdg] at h; simp at h
      | some v => exact ⟨v, by simp [pyIndex, hdg]⟩
  | null => simp [pyIn] at h
  | bool b => simp [pyIn] at h
  | num n => simp [pyIn] at h
  | str s => simp [pyIn] at h
  | arr es => simp [pyIn] at h

/-- A successful required-parameter check guarantees, for every listed
parameter, a present value that passed its enum check. -/
theorem checkRequired_ok_param (mt : String) (fields : Json)
    (L : List String) (h : checkRequired mt fields L = .ok ())
    (f : String) (hf : f ∈ L) :
    ∃ v, pyIndex fields f = .ok v ∧
      (f = "field_name" → jsonInStrs v ALLOWED_FIELD_NAMES = true) ∧
      (f = "packet_type" → jsonInStrs v ALLOWED_PACKET_TYPES = true) := by
  induction L with
  | nil => exact absurd hf (by simp)
  | cons g rest ih =>
      unfold checkRequired at h
      cases hin : pyIn g fields with
      | error e => rw [hin] at h; simp at h
      | ok present =>
          rw [hin] at h
          cases present with
          | false => simp at h
          | true =>
              simp only [Bool.not_true, Bool.false_eq_true, if_false] at h
              by_cases hg1 : g == "field_name"
              · rw [if_pos hg1] at h
                cases hidx : pyIndex fields g with
                | error e => rw [hidx] at h; simp at h
                | ok v =>
                    simp only [hidx] at h
                    cases henum : jsonInStrs v ALLOWED_FIELD_NAMES with
                    | false => rw [henum] at h; simp at h
                    | true =>
                        rw [henum] at h
                        simp only [Bool.not_true, Bool.false_eq_true,
                          if_false] at h
                        rcases List.mem_cons.mp hf with hfg | hfr
                        · subst hfg
                          refine ⟨v, hidx, fun _ => henum, fun hpt => ?_⟩
                          rw [hpt] at hg1
                          exact absurd hg1 (by decide)
                        · exact ih h hfr
              · rw [if_neg hg1] at h
                by_cases hg2 : g == "packet_type"
                · rw [if_pos hg2] at h
                  cases hidx : pyIndex fields g with
                  | error e => rw [hidx] at h; simp at h
                  | ok v =>
                      simp only [hidx] at h
                      cases henum : jsonInStrs v ALLOWED_PACKET_TYPES with
                      | false => rw [henum] at h; simp at h
                      | true =>
                          rw [henum] at h
                          simp only [Bool.not_true, Bool.false_eq_true,
                            if_false] at h
                          rcases List.mem_cons.mp hf with hfg | hfr
                          · subst hfg
                            refine ⟨v, hidx, fun hfn => ?_, fun _ => henum⟩
                            rw [hfn] at hg2
                            exact absurd hg2 (by decide)
                          · exact ih h hfr
                · rw [if_neg hg2] at h
                  rcases List.mem_cons.mp hf with hfg | hfr
                  · subst hfg
                    obtain ⟨v, hv⟩ := pyIn_true_pyIndex f fields hin
                    refine ⟨v, hv, fun hfn => ?_, fun hpt => ?_⟩
                    · rw [hfn] at hg1; exact absurd (by decide) hg1
                    · rw [hpt] at hg2; exact absurd (by decide) hg2
                  · exact ih h hfr

/-- A required parameter absent from the `fields` dict raises at the
presence check, before any later parameter is looked at. -/
theorem checkRequired_missing (mt : String) (fkvs : List (String × Json))
    (f : String) (rest : List String) (h : dget fkvs f = none) :
    checkRequired mt (.obj fkvs) (f :: rest) =
      .error (.valueError (missingFieldMsg f mt)) := by
  unfold checkRequired
  simp [pyIn, h]

/-- A supplied but out-of-vocabulary `field_name` raises at its own enum
check, before any later required parameter is looked at. -/
theorem checkRequired_bad_field_name (mt : String)
    (fkvs : List (String × Json)) (v : Json) (rest : List String)
    (hv : dget fkvs "field_name" = some v)
    (henum : jsonInStrs v ALLOWED_FIELD_NAMES = false) :
    checkRequired mt (.obj fkvs) ("field_name" :: rest) =
      .error (.valueError (invalidFieldNameMsg v)) := by
  unfold checkRequired
  simp [pyIn, pyIndex, hv, henum]

/-- A supplied but out-of-vocabulary `packet_type` raises at its own
enum check, before any later required parameter is looked at. -/
theorem checkRequired_bad_packet_type (mt : String)
    (fkvs : List (String × Json)) (v : Json) (rest : List String)
    (hv : dget fkvs "packet_type" = some v)
    (henum : jsonInStrs v ALLOWED_PACKET_TYPES = false) :
    checkRequired mt (.obj fkvs) ("packet_type" :: rest) =
      .error (.valueError (invalidPacketTypeMsg v)) := by
  unfold checkRequired
  simp [pyIn, pyIndex, hv, henum]

/-- An entry whose `mutation` value is outside the mutation-kind
vocabulary (or absent, or not a string) raises the kind error, whatever
its `target` and `fields` contain. -/
theorem parseEntry_bad_kind (kvs : List (String × Json))
    (h : optInStrs (dget kvs "mutation") (MUTATIONS_FORMAT.map Prod.fst) = false) :
    parseEntry (.obj kvs) =
      .error (.valueError (invalidMutationTypeMsg (dget kvs "mutation"))) := by
  unfold parseEntry
  simp [h]

/-- An entry with a valid kind but a `target` outside
`client` / `server` raises the target error, whatever its `fields`
contain. -/
theorem parseEntry_bad_target (kvs : List (String × Json))
    (h1 : optInStrs (dget kvs "mutation") (MUTATIONS_FORMAT.map Prod.fst) = true)
    (h2 : optInStrs (dget kvs "target") ["client", "server"] = false) :
    parseEntry (.obj kvs) =
      .error (.valueError (invalidTargetMsg (dget kvs "target"))) := by
  unfold parseEntry
  simp [h1, h2]

/-- With kind and target both valid, `parseEntry` is decided by the
required-parameter checks: an error there is the entry's error. -/
theorem parseEntry_check_error (kvs : List (String × Json))
    (mt tgt : String) (e : PyErr)
    (h1 : dget kvs "mutation" = some (.str mt))
    (hmem1 : (MUTATIONS_FORMAT.map Prod.fst).contains mt = true)
    (h2 : dget kvs "target" = some (.str tgt))
    (hmem2 : (["client", "server"] : List String).contains tgt = true)
    (hchk : checkRequired mt ((dget kvs "fields").getD (.obj []))
      ((dget MUTATIONS_FORMAT mt).getD []) = .error e) :
    parseEntry (.obj kvs) = .error e := by
  have hc1 : optInStrs (some (Json.str mt)) (MUTATIONS_FORMAT.map Prod.fst) = true := by
    simpa [optInStrs, jsonInStrs] using hmem1
  have hc2 : optInStrs (some (Json.str tgt)) ["client", "server"] = true := by
    simpa [optInStrs, jsonInStrs] using hmem2
  unfold parseEntry
  simp only [h1, h2, hc1, hc2, Bool.not_true, Bool.false_eq_true, if_false]
  simp only [hchk]

/-- With kind and target both valid and the required-parameter checks
passing, `parseEntry` returns the descriptor dict carrying the kind
under `mutation_type`, the target, and the raw `fields` value. -/
theorem parseEntry_check_ok (kvs : List (String × Json))
    (mt tgt : String)
    (h1 : dget kvs "mutation" = some (.str mt))
    (hmem1 : (MUTATIONS_FORMAT.map Prod.fst).contains mt = true)
    (h2 : dget kvs "target" = some (.str tgt))
    (hmem2 : (["client", "server"] : List String).contains tgt = true)
    (hchk : checkRequired mt ((dget kvs "fields").getD (.obj []))
      ((dget MUTATIONS_FORMAT mt).getD []) = .ok ()) :
    parseEntry (.obj kvs) =
      .ok [("mutation_type", .str mt), ("target", .str tgt),
           ("fields", (dget kvs "fields").getD (.obj []))] := by
  have hc1 : optInStrs (some (Json.str mt)) (MUTATIONS_FORMAT.map Prod.fst) = true := by
    simpa [optInStrs, jsonInStrs] using hmem1
  have hc2 : optInStrs (some (Json.str tgt)) ["client", "server"] = true := by
    simpa [optInStrs, jsonInStrs] using hmem2
  unfold parseEntry
  simp only [h1, h2, hc1, hc2, Bool.not_true, Bool.false_eq_true, if_false]
  simp only [hchk]

theorem isOkB_iff {α : Type} (r : Except PyErr α) :
    isOkB r = true ↔ ∃ a, r = .ok a := by
  cases r <;> simp [isOkB]

/-- The entry loop is fail-fast: the error of the first failing entry is
the error of the whole parse, and no partial list escapes. -/
theorem parseList_failfast (entries : List Json) (i : Nat)
    (hi : i < entries.length) (e : PyErr)
    (hok : ∀ j (hj : j < entries.length), j < i →
      isOkB (parseEntry (entries.get ⟨j, hj⟩)) = true)
    (herr : parseEntry (entries.get ⟨i, hi⟩) = .error e) :
    parseList entries = .error e := by
  induction entries generalizing i with
  | nil => exact absurd hi (by simp)
  | cons x rest ih =>
      cases i with
      | zero =>
          unfold parseList
          simp only [List.get] at herr
          simp [herr]
      | succ n =>
          have hx : isOkB (parseEntry x) = true := by
            have := hok 0 (by simp) (Nat.succ_pos n)
            simpa using this
          obtain ⟨d, hd⟩ := (isOkB_iff (parseEntry x)).mp hx
          have hn : n < rest.length := Nat.lt_of_succ_lt_succ hi
          have hrest : parseList rest = .error e := by
            refine ih n hn ?_ ?_
            · intro j hj hjn
              have := hok (j + 1) (by simpa using Nat.succ_lt_succ hj)
                (Nat.succ_lt_succ hjn)
              simpa using this
            · simpa using herr
          unfold parseList
          simp [hd, hrest]

theorem parseList_ok_length (entries : List Json) (ds : List Dict)
    (h : parseList entries = .ok ds) : ds.length = entries.length := by
  induction entries generalizing ds with
  | nil =>
      unfold parseList at h
      cases h
      rfl
  | cons x rest ih =>
      unfold parseList at h
      cases hx : parseEntry x with
      | error e => rw [hx] at h; simp at h
      | ok d =>
          rw [hx] at h
          cases hrest : parseList rest with
          | error e => rw [hrest] at h; simp at h
          | ok ds2 =>
              rw [hrest] at h
              cases h
              simpa using ih ds2 hrest

theorem parseList_ok_get (entries : List Json) (ds : List Dict)
    (h : parseList entries = .ok ds) (i : Nat)
    (hi : i < entries.length) (hi2 : i < ds.length) :
    parseEntry (entries.get ⟨i, hi⟩) = .ok (ds.get ⟨i, hi2⟩) := by
  induction entries generalizing ds i with
  | nil => exact absurd hi (by simp)
  | cons x rest ih =>
      unfold parseList at h
      cases hx : parseEntry x with
      | error e => rw [hx] at h; simp at h
      | ok d =>
          rw [hx] at h
          cases hrest : parseList rest with
          | error e => rw [hrest] at h; simp at h
          | ok ds2 =>
              rw [hrest] at h
              cases h
              cases i with
              | zero => simpa using hx
              | succ n =>
                  have hn : n < rest.length := Nat.lt_of_succ_lt_succ hi
                  have hn2 : n < ds2.length := Nat.lt_of_succ_lt_succ hi2
                  simpa using ih ds2 hrest n hn hn2

theorem jsonInStrs_true (v : Json) (ss : List String)
    (h : jsonInStrs v ss = true) :
    ∃ s, v = .str s ∧ ss.contains s = true := by
  cases v with
  | str s => exact ⟨s, rfl, by simpa [jsonInStrs] using h⟩
  | null => simp [jsonInStrs] at h
  | bool b => simp [jsonInStrs] at h
  | num n => simp [jsonInStrs] at h
  | arr es => simp [jsonInStrs] at h
  | obj kvs => simp [jsonInStrs] at h

/-- Everything a successful `parseEntry` guarantees about its input and
its output descriptor. -/
theorem parseEntry_ok_shape (e : Json) (d : Dict)
    (h : parseEntry e = .ok d) :
    ∃ kvs mt tgt,
      e = .obj kvs ∧
      dget kvs "mutation" = some (.str mt) ∧
      (MUTATIONS_FORMAT.map Prod.fst).contains mt = true ∧
      dget kvs "target" = some (.str tgt) ∧
      (["client", "server"] : List String).contains tgt = true ∧
      checkRequired mt ((dget kvs "fields").getD (.obj []))
        ((dget MUTATIONS_FORMAT mt).getD []) = .ok () ∧
      d = [("mutation_type", .str mt), ("target", .str tgt),
           ("fields", (dget kvs "fields").getD (.obj []))] := by
  cases e with
  | obj kvs =>
      unfold parseEntry at h
      cases hc1 : optInStrs (dget kvs "mutation") (MUTATIONS_FORMAT.map Prod.fst) with
      | false => simp [hc1] at h
      | true =>
          simp only [hc1, Bool.not_true, Bool.false_eq_true, if_false] at h
          cases hc2 : optInStrs (dget kvs "target") ["client", "server"] with
          | false => simp [hc2] at h
          | true =>
              simp only [hc2, Bool.not_true, Bool.false_eq_true, if_false] at h
              obtain ⟨mt, hmt, hmem1⟩ := optInStrs_true _ _ hc1
              obtain ⟨tgt, htgt, hmem2⟩ := optInStrs_true _ _ hc2
              simp only [hmt, htgt] at h
              cases hchk : checkRequired mt ((dget kvs "fields").getD (.obj []))
                  ((dget MUTATIONS_FORMAT mt).getD []) with
              | error e2 => rw [hchk] at h; simp at h
              | ok u =>
                  cases u
                  rw [hchk] at h
                  cases h
                  exact ⟨kvs, mt, tgt, rfl, hmt, hmem1, htgt, hmem2, hchk, rfl⟩
  | null => simp [parseEntry] at h
  | bool b => simp [parseEntry] at h
  | num n => simp [parseEntry] at h
  | str s => simp [parseEntry] at h
  | arr es => simp [parseEntry] at h

/-- The engine never raises on a descriptor built by the validator,
whatever the role and message. -/
theorem applyMutation_validated (e : Json) (d : Dict)
    (he : parseEntry e = .ok d) (role : String) (m : Msg) :
    ∃ m2, applyMutation role m d = .ok m2 := by
  obtain ⟨kvs, mt, tgt, _, _, hmem1, _, _, hchk, hd⟩ :=
    parseEntry_ok_shape e d he
  subst hd
  have ht : dget [("mutation_type", Json.str mt), ("target", Json.str tgt),
      ("fields", (dget kvs "fields").getD (.obj []))] "target" =
      some (Json.str tgt) := by rfl
  have hm : dget [("mutation_type", Json.str mt), ("target", Json.str tgt),
      ("fields", (dget kvs "fields").getD (.obj []))] "mutation_type" =
      some (Json.str mt) := by rfl
  have hf : dget [("mutation_type", Json.str mt), ("target", Json.str tgt),
      ("fields", (dget kvs "fields").getD (.obj []))] "fields" =
      some ((dget kvs "fields").getD (.obj [])) := by rfl
  cases htr : (tgt == role) with
  | false =>
      exact ⟨m, applyMutation_skip role m _ (Json.str tgt) ht
        (by simp [jeqStr, htr])⟩
  | true =>
      have hrole : tgt = role := beq_iff_eq.mp htr
      subst hrole
      have hmem1a : mt = "identity" ∨ mt = "remove_field" ∨
          mt = "modify_field" ∨ mt = "send_additional_packet" := by
        simpa [MUTATIONS_FORMAT] using hmem1
      rcases hmem1a with hid | hrm | hmod | hsap
      · subst hid
        exact ⟨m, applyMutation_noop tgt _ _ "identity" m ht hm
          (by decide) (by decide) hf⟩
      · subst hrm
        have hreq : (dget MUTATIONS_FORMAT "remove_field").getD [] =
            ["field_name"] := by rfl
        rw [hreq] at hchk
        obtain ⟨v, hv, hvfn, _⟩ := checkRequired_ok_param _ _ _ hchk
          "field_name" (by simp)
        obtain ⟨fn, hfn, _⟩ := jsonInStrs_true v _ (hvfn rfl)
        subst hfn
        exact ⟨_, applyMutation_remove tgt _ _ fn m ht hm hf hv⟩
      · subst hmod
        have hreq : (dget MUTATIONS_FORMAT "modify_field").getD [] =
            ["field_name", "new_value"] := by rfl
        rw [hreq] at hchk
        obtain ⟨v, hv, hvfn, _⟩ := checkRequired_ok_param _ _ _ hchk
          "field_name" (by simp)
        obtain ⟨w, hw, _, _⟩ := checkRequired_ok_param _ _ _ hchk
          "new_value" (by simp)
        obtain ⟨fn, hfn, _⟩ := jsonInStrs_true v _ (hvfn rfl)
        subst hfn
        exact ⟨_, applyMutation_modify tgt _ _ fn w m ht hm hf hv hw⟩
      · subst hsap
        exact ⟨m, applyMutation_noop tgt _ _ "send_additional_packet" m ht hm
          (by decide) (by decide) hf⟩

/-- The engine never raises on a descriptor list built by the validator. -/
theorem parseList_engine_ok (entries : List Json) (ds : List Dict)
    (h : parseList entries = .ok ds) (role : String) (m : Msg) :
    ∃ m2, mutateLoop role ds m = .ok m2 := by
  induction entries generalizing ds m with
  | nil =>
      unfold parseList at h
      cases h
      exact ⟨m, rfl⟩
  | cons x rest ih =>
      unfold parseList at h
      cases hx : parseEntry x with
      | error e => rw [hx] at h; simp at h
      | ok d =>
          rw [hx] at h
          cases hrest : parseList rest with
          | error e => rw [hrest] at h; simp at h
          | ok ds2 =>
              rw [hrest] at h
              cases h
              obtain ⟨m1, hm1⟩ := applyMutation_validated x d hx role m
              obtain ⟨m2, hm2⟩ := ih ds2 hrest m1
              refine ⟨m2, ?_⟩
              unfold mutateLoop
              rw [hm1]
              exact hm2

theorem mutateLoop_skip_middle (role : String) (d : Dict) (tgt : Json)
    (pre post : List Dict) (m : Msg)
    (h : dget d "target" = some tgt) (h2 : jeqStr tgt role = false) :
    mutateLoop role (pre ++ d :: post) m = mutateLoop role (pre ++ post) m := by
  rw [mutateLoop_append, mutateLoop_append]
  cases hpre : mutateLoop role pre m with
  | error e => rfl
  | ok m2 =>
      show mutateLoop role (d :: post) m2 = mutateLoop role post m2
      simp only [mutateLoop]
      rw [applyMutation_skip role m2 d tgt h h2]

/-- C1: a `modify_field` descriptor whose target matches the call sets
the named field to `new_value` verbatim when the message exposes it, and
leaves the message untouched otherwise; stated for
`mutate_client_hello` (first conjunct) and `mutate_server_hello`
(second conjunct). -/
theorem mutator_modify_field_sets_new_value :
    (∀ (d : Dict) (fj v : Json) (fn : String) (m : Msg),
      dget d "target" = some (.str "client") →
      dget d "mutation_type" = some (.str "modify_field") →
      dget d "fields" = some fj →
      pyIndex fj "field_name" = .ok (.str fn) →
      pyIndex fj "new_value" = .ok v →
      (hasattr m fn = true →
        mutate_client_hello [d] m = .ok (setattr m fn v) ∧
        getattr (setattr m fn v) fn = some v) ∧
      (hasattr m fn = false → mutate_client_hello [d] m = .ok m)) ∧
    (∀ (d : Dict) (fj v : Json) (fn : String) (m : Msg),
      dget d "target" = some (.str "server") →
      dget d "mutation_type" = some (.str "modify_field") →
      dget d "fields" = some fj →
      pyIndex fj "field_name" = .ok (.str fn) →
      pyIndex fj "new_value" = .ok v →
      (hasattr m fn = true →
        mutate_server_hello [d] m = .ok (setattr m fn v) ∧
        getattr (setattr m fn v) fn = some v) ∧
      (hasattr m fn = false → mutate_server_hello [d] m = .ok m)) := by
  constructor
  all_goals
    intro d fj v fn m ht hm hf hfn hv
    constructor
    · intro hh
      constructor
      · show mutateLoop _ [d] m = _
        rw [mutateLoop_singleton, applyMutation_modify _ d fj fn v m ht hm hf hfn hv, hh]
        simp
      · exact dget_setattr_self m fn v
    · intro hh
      show mutateLoop _ [d] m = _
      rw [mutateLoop_singleton, applyMutation_modify _ d fj fn v m ht hm hf hfn hv, hh]
      simp

/-- Witness for C1 at the spec's concrete scenario: setting `random` to
`deadbeef` on a ServerHello-shaped message. -/
theorem mutator_modify_field_sets_new_value_witness :
    mutate_server_hello
      [[("mutation_type", Json.str "modify_field"),
        ("target", Json.str "server"),
        ("fields", Json.obj [("field_name", Json.str "random"),
                             ("new_value", Json.str "deadbeef")])]]
      [("random", Json.str "0000")] =
      .ok [("random", Json.str "deadbeef")] :=
  ((mutator_modify_field_sets_new_value.2
      [("mutation_type", Json.str "modify_field"),
       ("target", Json.str "server"),
       ("fields", Json.obj [("field_name", Json.str "random"),
                            ("new_value", Json.str "deadbeef")])]
      (Json.obj [("field_name", Json.str "random"),
                 ("new_value", Json.str "deadbeef")])
      (Json.str "deadbeef") "random" [("random", Json.str "0000")]
      rfl rfl rfl rfl rfl).1 rfl).1

/-- C2: a `remove_field` descriptor whose target matches the call sets
the named field to `None` when the message exposes it, leaving every
other field untouched, and is a silent no-op otherwise; stated for
`mutate_client_hello` and `mutate_server_hello`. -/
theorem mutator_remove_field_clears_field :
    (∀ (d : Dict) (fj : Json) (fn : String) (m : Msg),
      dget d "target" = some (.str "client") →
      dget d "mutation_type" = some (.str "remove_field") →
      dget d "fields" = some fj →
      pyIndex fj "field_name" = .ok (.str fn) →
      (hasattr m fn = true →
        mutate_client_hello [d] m = .ok (setattr m fn Json.null) ∧
        getattr (setattr m fn Json.null) fn = some Json.null ∧
        ∀ g, g ≠ fn → getattr (setattr m fn Json.null) g = getattr m g) ∧
      (hasattr m fn = false → mutate_client_hello [d] m = .ok m)) ∧
    (∀ (d : Dict) (fj : Json) (fn : String) (m : Msg),
      dget d "target" = some (.str "server") →
      dget d "mutation_type" = some (.str "remove_field") →
      dget d "fields" = some fj →
      pyIndex fj "field_name" = .ok (.str fn) →
      (hasattr m fn = true →
        mutate_server_hello [d] m = .ok (setattr m fn Json.null) ∧
        getattr (setattr m fn Json.null) fn = some Json.null ∧
        ∀ g, g ≠ fn → getattr (setattr m fn Json.null) g = getattr m g) ∧
      (hasattr m fn = false → mutate_server_hello [d] m = .ok m)) := by
  constructor
  all_goals
    intro d fj fn m ht hm hf hfn
    constructor
    · intro hh
      refine ⟨?_, dget_setattr_self m fn Json.null,
        fun g hg => dget_setattr_ne m fn g Json.null hg⟩
      show mutateLoop _ [d] m = _
      rw [mutateLoop_singleton, applyMutation_remove _ d fj fn m ht hm hf hfn, hh]
      simp
    · intro hh
      show mutateLoop _ [d] m = _
      rw [mutateLoop_singleton, applyMutation_remove _ d fj fn m ht hm hf hfn, hh]
      simp

/-- Witness for C2 at the spec's concrete scenario: clearing
`alpn_protocols` on a ClientHello-shaped message leaves the other
fields untouched. -/
theorem mutator_remove_field_clears_field_witness :
    mutate_client_hello
      [[("mutation_type", Json.str "remove_field"),
        ("target", Json.str "client"),
        ("fields", Json.obj [("field_name", Json.str "alpn_protocols")])]]
      [("random", Json.str "aa"), ("alpn_protocols", Json.arr [Json.str "h3"]),
       ("server_name", Json.str "example.org")] =
      .ok [("random", Json.str "aa"), ("alpn_protocols", Json.null),
           ("server_name", Json.str "example.org")] ∧
    getattr [("random", Json.str "aa"), ("alpn_protocols", Json.null),
             ("server_name", Json.str "example.org")] "random" =
      some (Json.str "aa") :=
  have base := (mutator_remove_field_clears_field.1
      [("mutation_type", Json.str "remove_field"),
       ("target", Json.str "client"),
       ("fields", Json.obj [("field_name", Json.str "alpn_protocols")])]
      (Json.obj [("field_name", Json.str "alpn_protocols")])
      "alpn_protocols"
      [("random", Json.str "aa"), ("alpn_protocols", Json.arr [Json.str "h3"]),
       ("server_name", Json.str "example.org")]
      rfl rfl rfl rfl).1 rfl
  ⟨base.1, (base.2.2 "random" (by decide)).trans rfl⟩

/-- C3: a descriptor targeting the other role changes nothing for the
call, whatever else the descriptor contains (the role filter runs
before any other key of the descriptor is read). -/
theorem mutator_skips_mismatched_target :
    (∀ (d : Dict) (pre post : List Dict) (m : Msg),
      dget d "target" = some (.str "server") →
      mutate_client_hello (pre ++ d :: post) m =
        mutate_client_hello (pre ++ post) m) ∧
    (∀ (d : Dict) (pre post : List Dict) (m : Msg),
      dget d "target" = some (.str "client") →
      mutate_server_hello (pre ++ d :: post) m =
        mutate_server_hello (pre ++ post) m) := by
  constructor
  · intro d pre post m h
    exact mutateLoop_skip_middle "client" d (.str "server") pre post m h
      (by decide)
  · intro d pre post m h
    exact mutateLoop_skip_middle "server" d (.str "client") pre post m h
      (by decide)

/-- Witness for C3: a server-targeted entry with no other keys at all is
skipped by the client call (so the filter runs first). -/
theorem mutator_skips_mismatched_target_witness :
    mutate_client_hello [[("target", Json.str "server")]]
      [("random", Json.str "r")] =
    mutate_client_hello [] [("random", Json.str "r")] :=
  mutator_skips_mismatched_target.1 [("target", Json.str "server")] [] []
    [("random", Json.str "r")] rfl

/-- C7: descriptors of kind `identity`, `send_additional_packet`, or any
kind the engine does not recognize are silently ignored: the message is
returned unchanged and nothing is raised. -/
theorem mutator_ignores_unhandled_kinds :
    (∀ (d : Dict) (fj : Json) (mt : String) (m : Msg),
      dget d "target" = some (.str "client") →
      dget d "mutation_type" = some (.str mt) →
      mt ≠ "remove_field" → mt ≠ "modify_field" →
      dget d "fields" = some fj →
      mutate_client_hello [d] m = .ok m) ∧
    (∀ (d : Dict) (fj : Json) (mt : String) (m : Msg),
      dget d "target" = some (.str "server") →
      dget d "mutation_type" = some (.str mt) →
      mt ≠ "remove_field" → mt ≠ "modify_field" →
      dget d "fields" = some fj →
      mutate_server_hello [d] m = .ok m) := by
  constructor
  all_goals
    intro d fj mt m ht hm h1 h2 hf
    show mutateLoop _ [d] m = _
    rw [mutateLoop_singleton]
    exact applyMutation_noop _ d fj mt m ht hm h1 h2 hf

/-- Witness for C7: an `identity` descriptor on the client call and an
unimplemented `send_additional_packet` descriptor on the server call
both leave the message as it was. -/
theorem mutator_ignores_unhandled_kinds_witness :
    mutate_client_hello
      [[("mutation_type", Json.str "identity"), ("target", Json.str "client"),
        ("fields", Json.obj [])]]
      [("random", Json.str "aa")] = .ok [("random", Json.str "aa")] ∧
    mutate_server_hello
      [[("mutation_type", Json.str "send_additional_packet"),
        ("target", Json.str "server"),
        ("fields", Json.obj [("packet_type", Json.str "ClientHello"),
                             ("packet_content", Json.str "x")])]]
      [("random", Json.str "bb")] = .ok [("random", Json.str "bb")] :=
  ⟨mutator_ignores_unhandled_kinds.1
      [("mutation_type", Json.str "identity"), ("target", Json.str "client"),
       ("fields", Json.obj [])]
      (Json.obj []) "identity" [("random", Json.str "aa")]
      rfl rfl (by decide) (by decide) rfl,
   mutator_ignores_unhandled_kinds.2
      [("mutation_type", Json.str "send_additional_packet"),
       ("target", Json.str "server"),
       ("fields", Json.obj [("packet_type", Json.str "ClientHello"),
                            ("packet_content", Json.str "x")])]
      (Json.obj [("packet_type", Json.str "ClientHello"),
                 ("packet_content", Json.str "x")])
      "send_additional_packet" [("random", Json.str "bb")]
      rfl rfl (by decide) (by decide) rfl⟩

/-- C9: re-applying the same single `remove_field` or `modify_field`
descriptor to the already-mutated message changes nothing. -/
theorem mutator_remove_modify_idempotent :
    (∀ (d : Dict) (mt : String) (m m2 : Msg),
      dget d "mutation_type" = some (.str mt) →
      (mt = "remove_field" ∨ mt = "modify_field") →
      mutate_client_hello [d] m = .ok m2 →
      mutate_client_hello [d] m2 = .ok m2) ∧
    (∀ (d : Dict) (mt : String) (m m2 : Msg),
      dget d "mutation_type" = some (.str mt) →
      (mt = "remove_field" ∨ mt = "modify_field") →
      mutate_server_hello [d] m = .ok m2 →
      mutate_server_hello [d] m2 = .ok m2) := by
  constructor
  · intro d mt m m2 _ _ h
    have h2 : applyMutation "client" m d = .ok m2 := by
      rw [← mutateLoop_singleton "client" d m]
      exact h
    show mutateLoop "client" [d] m2 = .ok m2
    rw [mutateLoop_singleton]
    exact applyMutation_idem "client" m m2 d h2
  · intro d mt m m2 _ _ h
    have h2 : applyMutation "server" m d = .ok m2 := by
      rw [← mutateLoop_singleton "server" d m]
      exact h
    show mutateLoop "server" [d] m2 = .ok m2
    rw [mutateLoop_singleton]
    exact applyMutation_idem "server" m m2 d h2

/-- Witness for C9: removing `alpn_protocols` a second time changes
nothing. -/
theorem mutator_remove_modify_idempotent_witness :
    mutate_client_hello
      [[("mutation_type", Json.str "remove_field"),
        ("target", Json.str "client"),
        ("fields", Json.obj [("field_name", Json.str "alpn_protocols")])]]
      [("alpn_protocols", Json.null)] = .ok [("alpn_protocols", Json.null)] :=
  mutator_remove_modify_idempotent.1
    [("mutation_type", Json.str "remove_field"),
     ("target", Json.str "client"),
     ("fields", Json.obj [("field_name", Json.str "alpn_protocols")])]
    "remove_field" [("alpn_protocols", Json.arr [Json.str "h3"])]
    [("alpn_protocols", Json.null)] rfl (Or.inl rfl) rfl

/-- C4: a fully valid mutation-list array parses to a descriptor list of
the same length, in the same order, each descriptor carrying the
entry's kind (under `mutation_type`), its target, and its `fields`
value passed through unchanged. -/
theorem parse_preserves_length_and_order :
    ∀ (entries : List Json) (ds : List Dict),
      parse_mutation_params (.ok (.arr entries)) = .ok ds →
      ds.length = entries.length ∧
      ∀ i (hi : i < entries.length) (hi2 : i < ds.length),
        ∃ kvs mt tgt,
          entries.get ⟨i, hi⟩ = .obj kvs ∧
          dget kvs "mutation" = some (.str mt) ∧
          dget kvs "target" = some (.str tgt) ∧
          ds.get ⟨i, hi2⟩ =
            [("mutation_type", .str mt), ("target", .str tgt),
             ("fields", (dget kvs "fields").getD (.obj []))] := by
  intro entries ds h
  have hpl : parseList entries = .ok ds := h
  refine ⟨parseList_ok_length entries ds hpl, ?_⟩
  intro i hi hi2
  have hith := parseList_ok_get entries ds hpl i hi hi2
  obtain ⟨kvs, mt, tgt, hobj, hmut, _, htgt, _, _, hd⟩ :=
    parseEntry_ok_shape _ _ hith
  exact ⟨kvs, mt, tgt, hobj, hmut, htgt, hd⟩

/-- Witness for C4 at the spec's two-entry scenario. -/
theorem parse_preserves_length_and_order_witness :
    ([[("mutation_type", Json.str "remove_field"),
       ("target", Json.str "client"),
       ("fields", Json.obj [("field_name", Json.str "alpn_protocols")])],
      [("mutation_type", Json.str "modify_field"),
       ("target", Json.str "server"),
       ("fields", Json.obj [("field_name", Json.str "random"),
                            ("new_value", Json.str "deadbeef")])]] :
      List Dict).length =
    ([Json.obj [("mutation", Json.str "remove_field"),
                ("target", Json.str "client"),
                ("fields", Json.obj [("field_name", Json.str "alpn_protocols")])],
      Json.obj [("mutation", Json.str "modify_field"),
                ("target", Json.str "server"),
                ("fields", Json.obj [("field_name", Json.str "random"),
                                     ("new_value", Json.str "deadbeef")])]] :
      List Json).length ∧
    ∃ kvs mt tgt,
      ([Json.obj [("mutation", Json.str "remove_field"),
                  ("target", Json.str "client"),
                  ("fields", Json.obj [("field_name", Json.str "alpn_protocols")])],
        Json.obj [("mutation", Json.str "modify_field"),
                  ("target", Json.str "server"),
                  ("fields", Json.obj [("field_name", Json.str "random"),
                                       ("new_value", Json.str "deadbeef")])]] :
        List Json).get ⟨0, Nat.succ_pos 1⟩ = .obj kvs ∧
      dget kvs "mutation" = some (.str mt) ∧
      dget kvs "target" = some (.str tgt) ∧
      ([[("mutation_type", Json.str "remove_field"),
         ("target", Json.str "client"),
         ("fields", Json.obj [("field_name", Json.str "alpn_protocols")])],
        [("mutation_type", Json.str "modify_field"),
         ("target", Json.str "server"),
         ("fields", Json.obj [("field_name", Json.str "random"),
                              ("new_value", Json.str "deadbeef")])]] :
        List Dict).get ⟨0, Nat.succ_pos 1⟩ =
        [("mutation_type", .str mt), ("target", .str tgt),
         ("fields", (dget kvs "fields").getD (.obj []))] :=
  have base := parse_preserves_length_and_order
    [Json.obj [("mutation", Json.str "remove_field"),
               ("target", Json.str "client"),
               ("fields", Json.obj [("field_name", Json.str "alpn_protocols")])],
     Json.obj [("mutation", Json.str "modify_field"),
               ("target", Json.str "server"),
               ("fields", Json.obj [("field_name", Json.str "random"),
                                    ("new_value", Json.str "deadbeef")])]]
    [[("mutation_type", Json.str "remove_field"),
      ("target", Json.str "client"),
      ("fields", Json.obj [("field_name", Json.str "alpn_protocols")])],
     [("mutation_type", Json.str "modify_field"),
      ("target", Json.str "server"),
      ("fields", Json.obj [("field_name", Json.str "random"),
                           ("new_value", Json.str "deadbeef")])]]
    rfl
  ⟨base.1, base.2 0 (Nat.succ_pos 1) (Nat.succ_pos 1)⟩

/-- C5: validation runs kind membership first, then target membership,
then the per-parameter presence/enum checks in the kind's declared
order, raising at the first failing check; across entries the first
failing entry's error is the whole parse's outcome and no partial list
is returned. -/
theorem parse_validation_order_fail_fast :
    (∀ (entries : List Json) (i : Nat) (hi : i < entries.length) (e : PyErr),
      (∀ j (hj : j < entries.length), j < i →
        isOkB (parseEntry (entries.get ⟨j, hj⟩)) = true) →
      parseEntry (entries.get ⟨i, hi⟩) = .error e →
      parse_mutation_params (.ok (.arr entries)) = .error e) ∧
    (∀ kvs : List (String × Json),
      optInStrs (dget kvs "mutation") (MUTATIONS_FORMAT.map Prod.fst) = false →
      parseEntry (.obj kvs) =
        .error (.valueError (invalidMutationTypeMsg (dget kvs "mutation")))) ∧
    (∀ (kvs : List (String × Json)) (mt : String),
      dget kvs "mutation" = some (.str mt) →
      (MUTATIONS_FORMAT.map Prod.fst).contains mt = true →
      optInStrs (dget kvs "target") ["client", "server"] = false →
      parseEntry (.obj kvs) =
        .error (.valueError (invalidTargetMsg (dget kvs "target")))) ∧
    (∀ (kvs fkvs : List (String × Json)) (tgt : String),
      dget kvs "mutation" = some (.str "modify_field") →
      dget kvs "target" = some (.str tgt) →
      (["client", "server"] : List String).contains tgt = true →
      dget kvs "fields" = some (.obj fkvs) →
      dget fkvs "field_name" = none →
      parseEntry (.obj kvs) =
        .error (.valueError (missingFieldMsg "field_name" "modify_field"))) ∧
    (∀ (kvs fkvs : List (String × Json)) (tgt : String) (v : Json),
      dget kvs "mutation" = some (.str "modify_field") →
      dget kvs "target" = some (.str tgt) →
      (["client", "server"] : List String).contains tgt = true →
      dget kvs "fields" = some (.obj fkvs) →
      dget fkvs "field_name" = some v →
      jsonInStrs v ALLOWED_FIELD_NAMES = false →
      parseEntry (.obj kvs) =
        .error (.valueError (invalidFieldNameMsg v))) := by
  refine ⟨?_, ?_, ?_, ?_, ?_⟩
  · intro entries i hi e hok herr
    exact parseList_failfast entries i hi e hok herr
  · intro kvs h
    exact parseEntry_bad_kind kvs h
  · intro kvs mt h1 hmem h2
    refine parseEntry_bad_target kvs ?_ h2
    rw [h1]
    simpa [optInStrs, jsonInStrs] using hmem
  · intro kvs fkvs tgt h1 h2 hmem hf hfn
    refine parseEntry_check_error kvs "modify_field" tgt _ h1 (by decide)
      h2 hmem ?_
    rw [hf]
    show checkRequired "modify_field" (Json.obj fkvs)
      ["field_name", "new_value"] = _
    exact checkRequired_missing "modify_field" fkvs "field_name"
      ["new_value"] hfn
  · intro kvs fkvs tgt v h1 h2 hmem hf hfn henum
    refine parseEntry_check_error kvs "modify_field" tgt _ h1 (by decide)
      h2 hmem ?_
    rw [hf]
    show checkRequired "modify_field" (Json.obj fkvs)
      ["field_name", "new_value"] = _
    exact checkRequired_bad_field_name "modify_field" fkvs v
      ["new_value"] hfn henum

/-- Witness for C5: the kind error wins over a bad target; the target
error wins over missing parameters; a missing `field_name` and an
invalid `field_name` each raise before `new_value` is even looked at;
and the first failing entry of a list decides the whole parse. -/
theorem parse_validation_order_fail_fast_witness :
    parse_mutation_params (.ok (.arr
      [Json.obj [("mutation", Json.str "identity"),
                 ("target", Json.str "client")],
       Json.obj [("mutation", Json.str "bogus"),
                 ("target", Json.str "peer")]])) =
      .error (.valueError
        (invalidMutationTypeMsg (some (Json.str "bogus")))) ∧
    parseEntry (.obj [("mutation", Json.str "bogus"),
                      ("target", Json.str "peer")]) =
      .error (.valueError
        (invalidMutationTypeMsg (some (Json.str "bogus")))) ∧
    parseEntry (.obj [("mutation", Json.str "remove_field"),
                      ("target", Json.str "peer")]) =
      .error (.valueError (invalidTargetMsg (some (Json.str "peer")))) ∧
    parseEntry (.obj [("mutation", Json.str "modify_field"),
                      ("target", Json.str "client"),
                      ("fields", Json.obj [])]) =
      .error (.valueError (missingFieldMsg "field_name" "modify_field")) ∧
    parseEntry (.obj [("mutation", Json.str "modify_field"),
                      ("target", Json.str "client"),
                      ("fields", Json.obj
                        [("field_name", Json.str "not_a_real_field")])]) =
      .error (.valueError (invalidFieldNameMsg (Json.str "not_a_real_field"))) :=
  ⟨parse_validation_order_fail_fast.1
      [Json.obj [("mutation", Json.str "identity"),
                 ("target", Json.str "client")],
       Json.obj [("mutation", Json.str "bogus"),
                 ("target", Json.str "peer")]]
      1 (by decide) _ (by decide) rfl,
   parse_validation_order_fail_fast.2.1
      [("mutation", Json.str "bogus"), ("target", Json.str "peer")] rfl,
   parse_validation_order_fail_fast.2.2.1
      [("mutation", Json.str "remove_field"), ("target", Json.str "peer")]
      "remove_field" rfl (by decide) rfl,
   parse_validation_order_fail_fast.2.2.2.1
      [("mutation", Json.str "modify_field"), ("target", Json.str "client"),
       ("fields", Json.obj [])] [] "client" rfl rfl (by decide) rfl rfl,
   parse_validation_order_fail_fast.2.2.2.2
      [("mutation", Json.str "modify_field"), ("target", Json.str "client"),
       ("fields", Json.obj [("field_name", Json.str "not_a_real_field")])]
      [("field_name", Json.str "not_a_real_field")] "client"
      (Json.str "not_a_real_field") rfl rfl (by decide) rfl rfl rfl⟩

/-- Counterexample to C6: an `identity` entry that supplies a
`field_name` far outside the FieldName vocabulary parses successfully —
the enum check never runs for a kind that does not require the
parameter, so the claimed failure does not occur. -/
theorem parse_enum_check_unscoped_cex :
    parse_mutation_params (.ok (.arr
      [Json.obj [("mutation", Json.str "identity"),
                 ("target", Json.str "client"),
                 ("fields", Json.obj
                   [("field_name", Json.str "not_a_real_field")])]])) =
    .ok [[("mutation_type", Json.str "identity"),
          ("target", Json.str "client"),
          ("fields", Json.obj
            [("field_name", Json.str "not_a_real_field")])]] := rfl

/-- C6 (amended): `parse_mutation_params` fails with the `ValueError`
for an out-of-vocabulary `field_name` (resp. `packet_type`) exactly
when the supplying entry's declared kind lists that key among its
required parameters — `remove_field` / `modify_field` for `field_name`,
`send_additional_packet` for `packet_type`; entries of other kinds pass
such keys through unvalidated. -/
theorem parse_enum_checks_only_required_params :
    (∀ (entries : List Json) (i : Nat) (hi : i < entries.length)
       (kvs fkvs : List (String × Json)) (mt tgt : String) (v : Json),
      (∀ j (hj : j < entries.length), j < i →
        isOkB (parseEntry (entries.get ⟨j, hj⟩)) = true) →
      entries.get ⟨i, hi⟩ = .obj kvs →
      dget kvs "mutation" = some (.str mt) →
      (mt = "remove_field" ∨ mt = "modify_field") →
      dget kvs "target" = some (.str tgt) →
      (["client", "server"] : List String).contains tgt = true →
      dget kvs "fields" = some (.obj fkvs) →
      dget fkvs "field_name" = some v →
      jsonInStrs v ALLOWED_FIELD_NAMES = false →
      parse_mutation_params (.ok (.arr entries)) =
        .error (.valueError (invalidFieldNameMsg v))) ∧
    (∀ (entries : List Json) (i : Nat) (hi : i < entries.length)
       (kvs fkvs : List (String × Json)) (tgt : String) (v : Json),
      (∀ j (hj : j < entries.length), j < i →
        isOkB (parseEntry (entries.get ⟨j, hj⟩)) = true) →
      entries.get ⟨i, hi⟩ = .obj kvs →
      dget kvs "mutation" = some (.str "send_additional_packet") →
      dget kvs "target" = some (.str tgt) →
      (["client", "server"] : List String).contains tgt = true →
      dget kvs "fields" = some (.obj fkvs) →
      dget fkvs "packet_type" = some v →
      jsonInStrs v ALLOWED_PACKET_TYPES = false →
      parse_mutation_params (.ok (.arr entries)) =
        .error (.valueError (invalidPacketTypeMsg v))) := by
  constructor
  · intro entries i hi kvs fkvs mt tgt v hok hobj h1 hkind h2 hmem hf hfn henum
    refine parseList_failfast entries i hi _ hok ?_
    rw [hobj]
    rcases hkind with hrm | hmod
    · subst hrm
      refine parseEntry_check_error kvs "remove_field" tgt _ h1 (by decide)
        h2 hmem ?_
      rw [hf]
      show checkRequired "remove_field" (Json.obj fkvs) ["field_name"] = _
      exact checkRequired_bad_field_name "remove_field" fkvs v [] hfn henum
    · subst hmod
      refine parseEntry_check_error kvs "modify_field" tgt _ h1 (by decide)
        h2 hmem ?_
      rw [hf]
      show checkRequired "modify_field" (Json.obj fkvs)
        ["field_name", "new_value"] = _
      exact checkRequired_bad_field_name "modify_field" fkvs v
        ["new_value"] hfn henum
  · intro entries i hi kvs fkvs tgt v hok hobj h1 h2 hmem hf hpt henum
    refine parseList_failfast entries i hi _ hok ?_
    rw [hobj]
    refine parseEntry_check_error kvs "send_additional_packet" tgt _ h1
      (by decide) h2 hmem ?_
    rw [hf]
    show checkRequired "send_additional_packet" (Json.obj fkvs)
      ["packet_type", "packet_content"] = _
    exact checkRequired_bad_packet_type "send_additional_packet" fkvs v
      ["packet_content"] hpt henum

/-- Witness for amended C6: a `remove_field` entry with an
out-of-vocabulary `field_name` and a `send_additional_packet` entry
with an out-of-vocabulary `packet_type` each abort the parse. -/
theorem parse_enum_checks_only_required_params_witness :
    parse_mutation_params (.ok (.arr
      [Json.obj [("mutation", Json.str "remove_field"),
                 ("target", Json.str "client"),
                 ("fields", Json.obj
                   [("field_name", Json.str "not_a_real_field")])]])) =
      .error (.valueError (invalidFieldNameMsg (Json.str "not_a_real_field"))) ∧
    parse_mutation_params (.ok (.arr
      [Json.obj [("mutation", Json.str "send_additional_packet"),
                 ("target", Json.str "server"),
                 ("fields", Json.obj
                   [("packet_type", Json.str "HelloRetry"),
                    ("packet_content", Json.str "x")])]])) =
      .error (.valueError (invalidPacketTypeMsg (Json.str "HelloRetry"))) :=
  ⟨parse_enum_checks_only_required_params.1
      [Json.obj [("mutation", Json.str "remove_field"),
                 ("target", Json.str "client"),
                 ("fields", Json.obj
                   [("field_name", Json.str "not_a_real_field")])]]
      0 (Nat.succ_pos 0)
      [("mutation", Json.str "remove_field"), ("target", Json.str "client"),
       ("fields", Json.obj [("field_name", Json.str "not_a_real_field")])]
      [("field_name", Json.str "not_a_real_field")]
      "remove_field" "client" (Json.str "not_a_real_field")
      (fun j hj hlt => absurd hlt (Nat.not_lt_zero j))
      rfl rfl (Or.inl rfl) rfl (by decide) rfl rfl rfl,
   parse_enum_checks_only_required_params.2
      [Json.obj [("mutation", Json.str "send_additional_packet"),
                 ("target", Json.str "server"),
                 ("fields", Json.obj
                   [("packet_type", Json.str "HelloRetry"),
                    ("packet_content", Json.str "x")])]]
      0 (Nat.succ_pos 0)
      [("mutation", Json.str "send_additional_packet"),
       ("target", Json.str "server"),
       ("fields", Json.obj [("packet_type", Json.str "HelloRetry"),
                            ("packet_content", Json.str "x")])]
      [("packet_type", Json.str "HelloRetry"),
       ("packet_content", Json.str "x")]
      "server" (Json.str "HelloRetry")
      (fun j hj hlt => absurd hlt (Nat.not_lt_zero j))
      rfl rfl rfl (by decide) rfl rfl rfl⟩

/-- C8: text that is not valid JSON makes `parse_mutation_params` fail
with the same typed failure as every validation error — a `ValueError`
(the `json.JSONDecodeError` raised by the decoder is a `ValueError`
subclass) — carrying the decoder's human-readable message. -/
theorem parse_malformed_text_value_error :
    (∀ msg : String,
      parse_mutation_params (.error msg) = .error (.valueError msg)) ∧
    isValueError (parse_mutation_params
      (.error "Expecting value: line 1 column 1 (char 0)")) = true ∧
    isValueError (parse_mutation_params (.ok (.arr
      [Json.obj [("mutation", Json.str "bogus"),
                 ("target", Json.str "client"),
                 ("fields", Json.obj [])]]))) = true :=
  ⟨fun _ => rfl, rfl, rfl⟩

theorem parse_ok_inv (loads : Except String Json) (ds : List Dict)
    (h : parse_mutation_params loads = .ok ds) :
    ∃ entries, loads = .ok (.arr entries) ∧ parseList entries = .ok ds := by
  cases loads with
  | error msg => simp [parse_mutation_params] at h
  | ok j =>
      cases j with
      | arr entries => exact ⟨entries, rfl, h⟩
      | null => simp [parse_mutation_params] at h
      | bool b => simp [parse_mutation_params] at h
      | num n => simp [parse_mutation_params] at h
      | str s => simp [parse_mutation_params] at h
      | obj kvs => simp [parse_mutation_params] at h

theorem applyMutation_missing_mutation_type (role : String) (d : Dict)
    (m : Msg) (ht : dget d "target" = some (.str role))
    (hm : dget d "mutation_type" = none) :
    applyMutation role m d = .error (.keyError "mutation_type") := by
  unfold applyMutation
  simp only [ht]
  have hrole : jeqStr (.str role) role = true := by simp [jeqStr]
  simp only [hrole, Bool.not_true, Bool.false_eq_true, if_false]
  simp only [hm]

theorem applyMutation_missing_fields (role : String) (d : Dict) (m : Msg)
    (mtj : Json) (ht : dget d "target" = some (.str role))
    (hm : dget d "mutation_type" = some mtj)
    (hf : dget d "fields" = none) :
    applyMutation role m d = .error (.keyError "fields") := by
  unfold applyMutation
  simp only [ht]
  have hrole : jeqStr (.str role) role = true := by simp [jeqStr]
  simp only [hrole, Bool.not_true, Bool.false_eq_true, if_false]
  simp only [hm, hf]

theorem mutateLoop_cons_error (role : String) (d : Dict)
    (rest : List Dict) (m : Msg) (e : PyErr)
    (h : applyMutation role m d = .error e) :
    mutateLoop role (d :: rest) m = .error e := by
  simp only [mutateLoop, h]

/-- C10: descriptor lists built by `parse_mutation_params` (keyed
`mutation_type`) never make the engine raise, but a raw wire-format
entry (keyed `mutation`) with a matching target — or any matching entry
lacking `mutation_type` or `fields` — makes the engine raise a KeyError
instead of mutating or skipping. -/
theorem engine_dispatches_on_mutation_type :
    (∀ (loads : Except String Json) (ds : List Dict) (m : Msg),
      parse_mutation_params loads = .ok ds →
      (∃ m2, mutate_client_hello ds m = .ok m2) ∧
      (∃ m2, mutate_server_hello ds m = .ok m2)) ∧
    (∀ (d : Dict) (rest : List Dict) (m : Msg),
      dget d "target" = some (.str "client") →
      dget d "mutation_type" = none →
      mutate_client_hello (d :: rest) m = .error (.keyError "mutation_type")) ∧
    (∀ (d : Dict) (rest : List Dict) (m : Msg) (mtj : Json),
      dget d "target" = some (.str "client") →
      dget d "mutation_type" = some mtj →
      dget d "fields" = none →
      mutate_client_hello (d :: rest) m = .error (.keyError "fields")) ∧
    (∀ (d : Dict) (rest : List Dict) (m : Msg),
      dget d "target" = some (.str "server") →
      dget d "mutation_type" = none →
      mutate_server_hello (d :: rest) m = .error (.keyError "mutation_type")) := by
  refine ⟨?_, ?_, ?_, ?_⟩
  · intro loads ds m h
    obtain ⟨entries, _, hpl⟩ := parse_ok_inv loads ds h
    exact ⟨parseList_engine_ok entries ds hpl "client" m,
           parseList_engine_ok entries ds hpl "server" m⟩
  · intro d rest m ht hm
    exact mutateLoop_cons_error "client" d rest m _
      (applyMutation_missing_mutation_type "client" d m ht hm)
  · intro d rest m mtj ht hm hf
    exact mutateLoop_cons_error "client" d rest m _
      (applyMutation_missing_fields "client" d m mtj ht hm hf)
  · intro d rest m ht hm
    exact mutateLoop_cons_error "server" d rest m _
      (applyMutation_missing_mutation_type "server" d m ht hm)

/-- Witness for C10: the parsed form of the spec's remove-alpn entry
runs cleanly through both engine calls, while the same entry in raw
wire format (keyed `mutation`) makes the client call raise the lookup
error for `mutation_type`. -/
theorem engine_dispatches_on_mutation_type_witness :
    ((∃ m2, mutate_client_hello
        [[("mutation_type", Json.str "remove_field"),
          ("target", Json.str "client"),
          ("fields", Json.obj [("field_name", Json.str "alpn_protocols")])]]
        [("alpn_protocols", Json.arr [Json.str "h3"])] = .ok m2) ∧
     (∃ m2, mutate_server_hello
        [[("mutation_type", Json.str "remove_field"),
          ("target", Json.str "client"),
          ("fields", Json.obj [("field_name", Json.str "alpn_protocols")])]]
        [("alpn_protocols", Json.arr [Json.str "h3"])] = .ok m2)) ∧
    mutate_client_hello
      [[("mutation", Json.str "remove_field"),
        ("target", Json.str "client"),
        ("fields", Json.obj [("field_name", Json.str "alpn_protocols")])]]
      [("alpn_protocols", Json.arr [Json.str "h3"])] =
      .error (.keyError "mutation_type") :=
  ⟨engine_dispatches_on_mutation_type.1
      (.ok (.arr [Json.obj
        [("mutation", Json.str "remove_field"),
         ("target", Json.str "client"),
         ("fields", Json.obj [("field_name", Json.str "alpn_protocols")])]]))
      [[("mutation_type", Json.str "remove_field"),
        ("target", Json.str "client"),
        ("fields", Json.obj [("field_name", Json.str "alpn_protocols")])]]
      [("alpn_protocols", Json.arr [Json.str "h3"])] rfl,
   engine_dispatches_on_mutation_type.2.1
      [("mutation", Json.str "remove_field"),
       ("target", Json.str "client"),
       ("fields", Json.obj [("field_name", Json.str "alpn_protocols")])]
      [] [("alpn_protocols", Json.arr [Json.str "h3"])] rfl rfl⟩
